import Mathlib

/-
Verification of the samsung-tv-remote-interface client
(src/samsungTVClient.js) against its natural-language specification.

The JavaScript source is shallowly embedded: byte buffers become
`List Nat` (each element a byte value below 256), Node strings become
`String`, promises become an explicit `Settlement` value, and the
socket becomes an explicit trace of operations.  Every definition
mirrors the corresponding source function statement by statement.
-/

namespace SamsungTVClient

/-! ## Bytes and little-endian 16-bit fields -/

/-- Little-endian unsigned 16-bit encoding of a number, as written by
`Buffer.writeUInt16LE`.  The Node function throws for values above
65535; every use in the source (and every claim) stays below that
bound, where the encoding below agrees with it exactly. -/
def u16LE (n : Nat) : List Nat := [n % 256, n / 256 % 256]

/-- Byte values of the fixed ASCII application name
`iphone.iapp.samsung` used by `createMessage`. -/
def appName : List Nat :=
  [105, 112, 104, 111, 110, 101, 46, 105, 97, 112, 112, 46, 115, 97, 109, 115, 117, 110, 103]

/-! ## UTF-8 model

`createMessage` converts the payload buffer to a JavaScript string
(`payload.toString()`, UTF-8 with U+FFFD replacement for invalid
sequences, as the WHATWG decoder used by Node) and then re-encodes it
with `Buffer.write`, which emits UTF-8 and drops any final character
that does not fit in the remaining space of the buffer. -/

/-- UTF-8 encoding of a single code point, as emitted by `Buffer.write`. -/
def utf8EncodeChar (c : Nat) : List Nat :=
  if c < 0x80 then [c]
  else if c < 0x800 then [0xC0 + c / 64, 0x80 + c % 64]
  else if c < 0x10000 then [0xE0 + c / 4096, 0x80 + c / 64 % 64, 0x80 + c % 64]
  else [0xF0 + c / 262144, 0x80 + c / 4096 % 64, 0x80 + c / 64 % 64, 0x80 + c % 64]

/-- UTF-8 decoding with U+FFFD replacement for invalid input, following
the WHATWG decoder (maximal-subpart recovery) that Node uses for
`buffer.toString()`: a byte that cannot continue the current sequence
is reprocessed after one replacement character is emitted.  The first
argument is recursion fuel; at least one byte is consumed per emitted
code point, so fuel equal to the byte count (as supplied by
`utf8Decode` below) always suffices. -/
def utf8DecodeF : Nat → List Nat → List Nat
  | 0, _ => []
  | _, [] => []
  | fuel + 1, b :: bs =>
    if b < 0x80 then b :: utf8DecodeF fuel bs
    else if b < 0xC2 then 0xFFFD :: utf8DecodeF fuel bs
    else if b < 0xE0 then
      match bs with
      | b1 :: bs1 =>
        if 0x80 ≤ b1 ∧ b1 < 0xC0 then
          ((b - 0xC0) * 64 + (b1 - 0x80)) :: utf8DecodeF fuel bs1
        else 0xFFFD :: utf8DecodeF fuel bs
      | [] => [0xFFFD]
    else if b < 0xF0 then
      match bs with
      | b1 :: bs1 =>
        if (if b = 0xE0 then 0xA0 else 0x80) ≤ b1 ∧ b1 < (if b = 0xED then 0xA0 else 0xC0) then
          match bs1 with
          | b2 :: bs2 =>
            if 0x80 ≤ b2 ∧ b2 < 0xC0 then
              ((b - 0xE0) * 4096 + (b1 - 0x80) * 64 + (b2 - 0x80)) :: utf8DecodeF fuel bs2
            else 0xFFFD :: utf8DecodeF fuel bs1
          | [] => [0xFFFD]
        else 0xFFFD :: utf8DecodeF fuel bs
      | [] => [0xFFFD]
    else if b < 0xF5 then
      match bs with
      | b1 :: bs1 =>
        if (if b = 0xF0 then 0x90 else 0x80) ≤ b1 ∧ b1 < (if b = 0xF4 then 0x90 else 0xC0) then
          match bs1 with
          | b2 :: bs2 =>
            if 0x80 ≤ b2 ∧ b2 < 0xC0 then
              match bs2 with
              | b3 :: bs3 =>
                if 0x80 ≤ b3 ∧ b3 < 0xC0 then
                  ((b - 0xF0) * 262144 + (b1 - 0x80) * 4096 + (b2 - 0x80) * 64 + (b3 - 0x80))
                    :: utf8DecodeF fuel bs3
                else 0xFFFD :: utf8DecodeF fuel bs2
              | [] => [0xFFFD]
            else 0xFFFD :: utf8DecodeF fuel bs1
          | [] => [0xFFFD]
        else 0xFFFD :: utf8DecodeF fuel bs
      | [] => [0xFFFD]
    else 0xFFFD :: utf8DecodeF fuel bs

/-- Model of `buffer.toString()` in Node: UTF-8 decoding of the byte
list with U+FFFD replacement, producing the code points of the
resulting JavaScript string. -/
def utf8Decode (bs : List Nat) : List Nat := utf8DecodeF bs.length bs

/-- UTF-8 serialisation of a sequence of code points into a buffer with
`cap` bytes of remaining space, as done by `Buffer.write`: characters
are written in order and the write stops at the first character whose
encoding does not fit completely. -/
def bufWriteStr : Nat → List Nat → List Nat
  | _, [] => []
  | cap, c :: cs =>
    let e := utf8EncodeChar c
    if e.length ≤ cap then e ++ bufWriteStr (cap - e.length) cs else []

/-- Pads a byte list with zeroes up to the given length; the bytes of a
freshly allocated Node buffer (`Buffer.alloc`) that a short write does
not reach stay zero. -/
def padTo (len : Nat) (bs : List Nat) : List Nat :=
  bs ++ List.replicate (len - bs.length) 0

/-! ## Buffer writes at offsets -/

/-- Model of storing `bs` into the fixed-size buffer `buf` starting at
`off`: bytes past the end of the buffer are dropped, the buffer never
grows (Node `Buffer.write` / `writeUInt16LE` semantics for in-range
writes). -/
def writeAt (buf : List Nat) (off : Nat) (bs : List Nat) : List Nat :=
  buf.take off ++ bs.take (buf.length - off) ++ buf.drop (off + bs.length)

/-- Model of `buf.write(string, off)`: the string (a list of code
points) is UTF-8 encoded into the space remaining after `off`,
dropping a final character that does not fit completely. -/
def writeStrAt (buf : List Nat) (off : Nat) (cs : List Nat) : List Nat :=
  writeAt buf off (bufWriteStr (buf.length - off) cs)

/-! ## Base64 (`toBase64`) -/

/-- Byte values of the base64 alphabet
`ABCDEFGHIJKLMNOPQRSTUVWXYZabcdefghijklmnopqrstuvwxyz0123456789+/`. -/
def base64Table : List Nat :=
  [65, 66, 67, 68, 69, 70, 71, 72, 73, 74, 75, 76, 77, 78, 79, 80, 81, 82, 83, 84, 85, 86,
   87, 88, 89, 90, 97, 98, 99, 100, 101, 102, 103, 104, 105, 106, 107, 108, 109, 110, 111,
   112, 113, 114, 115, 116, 117, 118, 119, 120, 121, 122, 48, 49, 50, 51, 52, 53, 54, 55,
   56, 57, 43, 47]

/-- The base64 digit for a 6-bit value. -/
def b64Char (n : Nat) : Nat := base64Table.getD n 0

/-- Standard base64 of a byte list with `=` (byte 61) padding, as
produced by `Buffer.toString(base64)` in Node. -/
def base64Encode : List Nat → List Nat
  | [] => []
  | [a] => [b64Char (a / 4), b64Char (a % 4 * 16), 61, 61]
  | [a, b] => [b64Char (a / 4), b64Char (a % 4 * 16 + b / 16), b64Char (b % 16 * 4), 61]
  | a :: b :: c :: rest =>
    b64Char (a / 4) :: b64Char (a % 4 * 16 + b / 16) :: b64Char (b % 16 * 4 + c / 64)
      :: b64Char (c % 64) :: base64Encode rest

/-- UTF-8 bytes of a string, as produced by `Buffer.from(string)`. -/
def strUtf8 (s : String) : List Nat :=
  (s.data.map Char.toNat).flatMap utf8EncodeChar

/-- Model of the static `toBase64`: `Buffer.from(string).toString(base64)`,
the base64 bytes of the UTF-8 encoding of the string. -/
def toBase64 (s : String) : List Nat := base64Encode (strUtf8 s)

/-! ## Address validation (`net.isIP`)

Modelled from the spec: `net.isIP` is a Node library primitive, not
part of this repository.  The spec requires a syntactically valid IPv4
or IPv6 literal; the model implements the dotted-quad IPv4 grammar
(decimal octets 0 to 255, no leading zeroes) and the grouped-hex IPv6
grammar (groups of 1 to 4 hex digits, at most one double colon,
optional trailing IPv4 quad); zone identifiers are not modelled.  The
result is 4, 6, or 0, as in Node. -/

/-- Is the character an ASCII decimal digit. -/
def isDigitCh (c : Char) : Bool := 48 ≤ c.toNat && c.toNat ≤ 57

/-- Is the character an ASCII hexadecimal digit. -/
def isHexCh (c : Char) : Bool :=
  isDigitCh c || (97 ≤ c.toNat && c.toNat ≤ 102) || (65 ≤ c.toNat && c.toNat ≤ 70)

/-- Splits a character list on a separator character; a list with no
separator yields one part, and adjacent separators yield empty parts. -/
def splitOnCh (sep : Char) : List Char → List (List Char)
  | [] => [[]]
  | c :: cs =>
    if c = sep then [] :: splitOnCh sep cs
    else
      match splitOnCh sep cs with
      | g :: gs => (c :: g) :: gs
      | [] => [[c]]

/-- Splits a character list on the two-character token of two colons,
scanning left to right without overlap. -/
def splitOnDColon : List Char → List (List Char)
  | [] => [[]]
  | [c] => [[c]]
  | c1 :: c2 :: cs =>
    if c1 = ':' ∧ c2 = ':' then [] :: splitOnDColon cs
    else
      match splitOnDColon (c2 :: cs) with
      | g :: gs => (c1 :: g) :: gs
      | [] => [[c1]]

/-- Decimal value of a digit list. -/
def decimalVal (p : List Char) : Nat := p.foldl (fun a c => a * 10 + (c.toNat - 48)) 0

/-- A valid IPv4 octet: one to three decimal digits, no leading zero
unless the octet is the single digit 0, value at most 255. -/
def validOctet (p : List Char) : Bool :=
  decide (1 ≤ p.length) && decide (p.length ≤ 3) && p.all isDigitCh &&
    (decide (p.length = 1) || !(p.headD 'A' = '0')) && decide (decimalVal p ≤ 255)

/-- A syntactically valid dotted-quad IPv4 literal. -/
def isIPv4 (cs : List Char) : Bool :=
  match splitOnCh '.' cs with
  | [a, b, c, d] => validOctet a && validOctet b && validOctet c && validOctet d
  | _ => false

/-- A valid IPv6 group: one to four hexadecimal digits. -/
def validGroup (g : List Char) : Bool :=
  decide (1 ≤ g.length) && decide (g.length ≤ 4) && g.all isHexCh

/-- A syntactically valid IPv6 literal: eight colon-separated hex
groups, or fewer with one double colon, with an optional trailing
IPv4 dotted quad standing for the last two groups. -/
def isIPv6 (cs : List Char) : Bool :=
  match splitOnDColon cs with
  | [whole] =>
    let gs := splitOnCh ':' whole
    (decide (gs.length = 8) && gs.all validGroup) ||
      (decide (gs.length = 7) && (gs.take 6).all validGroup && isIPv4 (gs.getLastD []))
  | [l, r] =>
    let gl := if l.isEmpty then [] else splitOnCh ':' l
    let gr := if r.isEmpty then [] else splitOnCh ':' r
    gl.all validGroup &&
      ((gr.all validGroup && decide (gl.length + gr.length ≤ 7)) ||
        (decide (1 ≤ gr.length) && gr.dropLast.all validGroup && isIPv4 (gr.getLastD []) &&
          decide (gl.length + gr.length ≤ 6)))
  | _ => false

/-- Model of `net.isIP`: 4 for an IPv4 literal, 6 for an IPv6 literal,
0 otherwise. -/
def isIP (s : String) : Nat :=
  if isIPv4 s.data then 4 else if isIPv6 s.data then 6 else 0

/-! ## Codec (static methods of `SamsungTVClient`)

Each definition mirrors the sequence of buffer writes of the
corresponding static method, offset by offset. -/

/-- Model of the static `createMessage(payload)`: allocates a zeroed
buffer of `5 + nameSize + payloadSize` bytes, leaves byte 0 as 0x00,
writes the app-name length (u16 LE) at offset 1, the app name at
offset 3, the payload length (u16 LE) at offset `3 + nameSize`, and
finally `payload.toString()` at offset `5 + nameSize` — the payload
bytes re-encoded through a UTF-8 string conversion. -/
def createMessage (payload : List Nat) : List Nat :=
  let nameSize := appName.length
  let payloadSize := payload.length
  let buffLen := 5 + nameSize + payloadSize
  let m0 := List.replicate buffLen 0
  let m1 := writeAt m0 1 (u16LE nameSize)
  let m2 := writeStrAt m1 3 appName
  let m3 := writeAt m2 (3 + nameSize) (u16LE payloadSize)
  writeStrAt m3 (5 + nameSize) (utf8Decode payload)

/-- Typed failures of the embedded operations. -/
inductive ClientErr where
  /-- The `Not a valid IP` error thrown by `createAuthPayload`. -/
  | invalidIP : ClientErr
  deriving DecidableEq

/-- Model of the static `createAuthPayload(ip, id, name)`: throws when
`net.isIP(ip)` is 0; otherwise allocates a zeroed buffer of
`8 + ipSize + idSize + nameSize` bytes, writes 0x64 at offset 0,
leaves offset 1 as 0x00, and writes each base64-encoded field prefixed
by its u16 LE byte length. -/
def createAuthPayload (ip id name : String) : Except ClientErr (List Nat) :=
  if isIP ip = 0 then Except.error ClientErr.invalidIP else
  let ipBase64 := toBase64 ip
  let ipSize := ipBase64.length
  let idBase64 := toBase64 id
  let idSize := idBase64.length
  let nameBase64 := toBase64 name
  let nameSize := nameBase64.length
  let buffLen := 8 + ipSize + idSize + nameSize
  let p0 := List.replicate buffLen 0
  let p1 := writeAt p0 0 [0x64]
  let p2 := writeAt p1 2 (u16LE ipSize)
  let p3 := writeStrAt p2 4 ipBase64
  let p4 := writeAt p3 (4 + ipSize) (u16LE idSize)
  let p5 := writeStrAt p4 (6 + ipSize) idBase64
  let p6 := writeAt p5 (6 + ipSize + idSize) (u16LE nameSize)
  Except.ok (writeStrAt p6 (8 + ipSize + idSize) nameBase64)

/-- Model of the static `createKeyPayload(key)`: a zeroed buffer of
`5 + keySize` bytes whose first three bytes stay 0x00, followed by the
u16 LE byte length of the base64-encoded key and the base64 bytes. -/
def createKeyPayload (key : String) : List Nat :=
  let keyBase64 := toBase64 key
  let keySize := keyBase64.length
  let buffLen := 5 + keySize
  let p0 := List.replicate buffLen 0
  let p1 := writeAt p0 3 (u16LE keySize)
  writeStrAt p1 5 keyBase64

/-- Failure of a buffer read: Node `readUInt16LE` throws an
out-of-range error when fewer than two bytes remain at the offset. -/
inductive PErr where
  | outOfRange : PErr
  deriving DecidableEq

deriving instance DecidableEq for Except

/-- Model of `response.readUInt16LE(offset)`: the little-endian 16-bit
value at the offset, or an out-of-range error when fewer than two
bytes remain there. -/
def readUInt16LE (bs : List Nat) (off : Nat) : Except PErr Nat :=
  match bs.drop off with
  | a :: b :: _ => Except.ok (a + 256 * b)
  | _ => Except.error PErr.outOfRange

/-- Model of the static `parseResponse(response)`: skips byte 0, reads
the app-name length at offset 1, skips that many bytes, reads the
payload length, and returns `response.slice(offset, payloadSize + offset)`.
Node `slice` clamps to the end of the buffer, so the result can be
shorter than the declared payload length; only the two u16 reads can
fail. -/
def parseResponse (response : List Nat) : Except PErr (List Nat) :=
  match readUInt16LE response 1 with
  | Except.error e => Except.error e
  | Except.ok stringLen =>
    match readUInt16LE response (3 + stringLen) with
    | Except.error e => Except.error e
    | Except.ok payloadSize =>
      Except.ok ((response.drop (5 + stringLen)).take payloadSize)

/-! ## Response signatures (`accessResponse`) -/

/-- The `granted` response signature. -/
def granted : List Nat := [0x64, 0x00, 0x01, 0x00]

/-- The `denied` response signature. -/
def denied : List Nat := [0x64, 0x00, 0x00, 0x00]

/-- The `await` response signature (user has not yet answered). -/
def awaitResp : List Nat := [0x0A, 0x00, 0x02, 0x00, 0x00, 0x00]

/-- The `timeout` response signature. -/
def timeoutResp : List Nat := [0x65, 0x00]

/-! ## Client facade

Promises are embedded as an explicit `Settlement` value and the socket
as a trace of the operations invoked on it.  The class holds only a
socket and the constructor delay; it keeps no record of whether
`connect` or `authenticate` ever completed. -/

/-- A JavaScript value a promise can resolve with. -/
inductive JSValue where
  | undef : JSValue
  | bool : Bool → JSValue
  | str : String → JSValue
  deriving DecidableEq

/-- Settlement state of a promise: resolved, rejected with an error
message, or not settled. -/
inductive Settlement where
  | resolved : JSValue → Settlement
  | rejected : String → Settlement
  | pending : Settlement
  deriving DecidableEq

/-- An operation invoked on the underlying `net.Socket`. -/
inductive SocketOp where
  /-- A `socket.connect(port, host, cb)` call. -/
  | sockConnect : Nat → String → SocketOp
  /-- Registration of an error listener. -/
  | onErrorListener : SocketOp
  /-- A `socket.write(bytes)` call. -/
  | sockWrite : List Nat → SocketOp
  /-- Registration of a data listener. -/
  | onDataListener : SocketOp
  deriving DecidableEq

/-- Mutable state of a client instance: the constructor delay and the
trace of frames written to the socket.  The source class has no other
state; in particular it records nothing about authentication. -/
structure ClientModel where
  delay : Nat
  written : List (List Nat)
  deriving DecidableEq

/-- Socket operations performed by the executor of `connect(ip)`: the
executor body runs to the end even when it has already rejected, so
`socket.connect(55000, ip, resolve)` and the error-listener
registration happen on every call. -/
def connectOps (ip : String) : List SocketOp :=
  [SocketOp.sockConnect 55000 ip, SocketOp.onErrorListener]

/-- Immediate settlement of the promise returned by `connect(ip)`: the
executor first rejects when `net.isIP(ip)` is 0 (a promise settles
only once, so the later resolve or reject is ignored), and otherwise
leaves the promise pending until a socket event arrives. -/
def connectSettle (ip : String) : Settlement :=
  if isIP ip = 0 then Settlement.rejected "Not a valid IP" else Settlement.pending

/-- Effect of one `data` event on the promise returned by
`authenticate` while it is unsettled: the frame is parsed and the
payload compared byte for byte (`Buffer.compare`) against the
signatures; a frame matching none of the three handled signatures
settles nothing, and a frame `parseResponse` throws on leaves the
promise untouched (the exception escapes the event handler). -/
def authOnData (data : List Nat) : Settlement :=
  match parseResponse data with
  | Except.error _ => Settlement.pending
  | Except.ok payload =>
    if payload = granted then Settlement.resolved (JSValue.str "Success")
    else if payload = denied then Settlement.rejected "Access denied"
    else if payload = timeoutResp then Settlement.rejected "Timeout"
    else Settlement.pending

/-- One inbound frame applied to the authenticate promise: a settled
promise ignores further resolve and reject calls; an unsettled one is
settled (or not) by the data handler. -/
def authStep (s : Settlement) (data : List Nat) : Settlement :=
  match s with
  | Settlement.pending => authOnData data
  | settled => settled

/-- Model of `send(buffer)`: the executor resolves immediately with
the boolean returned by `socket.write(buffer)` (supplied here by the
environment as `flushed`); it has no reject path. -/
def send (c : ClientModel) (flushed : Bool) (buffer : List Nat) :
    ClientModel × Settlement :=
  ({ c with written := c.written ++ [buffer] }, Settlement.resolved (JSValue.bool flushed))

/-- Result of a `sendMessage` call: the client state after the write,
the settlement of the returned promise, and the duration passed to
`setTimeout` before that promise resolves. -/
structure SendMessageResult where
  client : ClientModel
  settle : Settlement
  delayUsed : Nat
  deriving DecidableEq

/-- Model of `sendMessage(message, delay = this.delay)`: calls `send`
and then schedules `setTimeout(resolve, delay || this.delay)`.  The
boolean `send` resolved with is discarded, the promise always resolves
with `undefined`, and a zero `delay` argument falls back to the
constructor delay because 0 is falsy. -/
def sendMessage (c : ClientModel) (flushed : Bool) (message : List Nat)
    (delay : Option Nat) : SendMessageResult :=
  let d := delay.getD c.delay
  let s := send c flushed message
  { client := s.fst
    settle := Settlement.resolved JSValue.undef
    delayUsed := if d = 0 then c.delay else d }

/-- Model of `sendMessageByPayload(payload, delay = this.delay)`:
`sendMessage(createMessage(payload), delay)`. -/
def sendMessageByPayload (c : ClientModel) (flushed : Bool) (payload : List Nat)
    (delay : Option Nat) : SendMessageResult :=
  sendMessage c flushed (createMessage payload) delay

/-! ## Quick sanity checks of the model -/

example : utf8Decode [104, 105] = [104, 105] := by decide
example : utf8Decode [255] = [0xFFFD] := by decide
example : utf8Decode [0xC2, 0xA9] = [0xA9] := by decide
example : utf8EncodeChar 0xA9 = [0xC2, 0xA9] := by decide
example : bufWriteStr 1 [0xFFFD] = [] := by decide
example : writeAt [0, 0, 0, 0] 1 [7, 8] = [0, 7, 8, 0] := by decide
example : isIP "192.168.0.1" = 4 := by decide
example : isIP "999.999.999.999" = 0 := by decide
example : isIP "1.2.3.04" = 0 := by decide
example : isIP "::1" = 6 := by decide
example : isIP "2001:db8::ff00:42:8329" = 6 := by decide
example : isIP "::ffff:10.0.0.1" = 6 := by decide
example : isIP "1:2:3:4:5:6:7:8:9" = 0 := by decide
example : isIP "abc" = 0 := by decide
example : isIP "" = 0 := by decide
example : toBase64 "Ma" = [84, 87, 69, 61] := by decide

example :
    createMessage [104, 105] =
      [0, 19, 0, 105, 112, 104, 111, 110, 101, 46, 105, 97, 112, 112, 46, 115, 97, 109,
       115, 117, 110, 103, 2, 0, 104, 105] := by decide

example : parseResponse (createMessage [104, 105]) = Except.ok [104, 105] := by decide

example :
    createKeyPayload "a" =
      [0, 0, 0, 4, 0, 89, 81, 61, 61] := by decide

/-! ## Helper lemmas about the byte model -/

theorem u16LE_length (n : Nat) : (u16LE n).length = 2 := rfl

theorem appName_length : appName.length = 19 := rfl

theorem appName_ascii : ∀ b ∈ appName, b < 128 := by decide

theorem utf8EncodeChar_ascii {c : Nat} (h : c < 128) : utf8EncodeChar c = [c] := by
  simp [utf8EncodeChar, h]

theorem bufWriteStr_length_le : ∀ (cs : List Nat) (cap : Nat), (bufWriteStr cap cs).length ≤ cap
  | [], cap => by simp [bufWriteStr]
  | c :: cs, cap => by
    simp only [bufWriteStr]
    by_cases h : (utf8EncodeChar c).length ≤ cap
    · have ih := bufWriteStr_length_le cs (cap - (utf8EncodeChar c).length)
      simp only [h, if_true, List.length_append]
      omega
    · simp [h]

theorem bufWriteStr_ascii : ∀ (cs : List Nat) (cap : Nat), (∀ b ∈ cs, b < 128) →
    cs.length ≤ cap → bufWriteStr cap cs = cs
  | [], cap, _, _ => by simp [bufWriteStr]
  | c :: cs, cap, hA, hlen => by
    have hc : c < 128 := hA c (List.mem_cons_self c cs)
    have hrest : ∀ b ∈ cs, b < 128 := fun b hb => hA b (List.mem_cons_of_mem c hb)
    have hlen1 : cs.length + 1 ≤ cap := by simpa using hlen
    simp only [bufWriteStr, utf8EncodeChar_ascii hc, List.length_cons, List.length_nil]
    have h1 : 0 + 1 ≤ cap := by omega
    simp only [h1, if_true]
    rw [bufWriteStr_ascii cs (cap - (0 + 1)) hrest (by omega)]
    rfl

theorem utf8DecodeF_ascii : ∀ (n : Nat) (cs : List Nat), (∀ b ∈ cs, b < 128) →
    cs.length ≤ n → utf8DecodeF n cs = cs
  | 0, cs, _, hlen => by
    have : cs = [] := List.eq_nil_of_length_eq_zero (by omega)
    subst this; rfl
  | n + 1, [], _, _ => rfl
  | n + 1, c :: cs, hA, hlen => by
    have hc : c < 128 := hA c (List.mem_cons_self c cs)
    have hrest : ∀ b ∈ cs, b < 128 := fun b hb => hA b (List.mem_cons_of_mem c hb)
    simp only [utf8DecodeF, hc, if_true]
    rw [utf8DecodeF_ascii n cs hrest (by simpa using hlen)]

theorem utf8Decode_ascii (cs : List Nat) (h : ∀ b ∈ cs, b < 128) : utf8Decode cs = cs :=
  utf8DecodeF_ascii cs.length cs h (Nat.le_refl _)

theorem padTo_self (bs : List Nat) : padTo bs.length bs = bs := by
  simp [padTo]

theorem padTo_length {len : Nat} {bs : List Nat} (h : bs.length ≤ len) :
    (padTo len bs).length = len := by
  simp [padTo]; omega

theorem b64Char_lt (n : Nat) : b64Char n < 128 := by
  unfold b64Char
  by_cases h : n < 64
  · interval_cases n <;> decide
  · rw [List.getD_eq_getElem?_getD, List.getElem?_eq_none (by simp [base64Table]; omega)]
    decide

theorem base64Encode_ascii : ∀ (bs : List Nat), ∀ x ∈ base64Encode bs, x < 128
  | [] => by simp [base64Encode]
  | [a] => by
    simp only [base64Encode, List.mem_cons, List.not_mem_nil, or_false]
    rintro x (rfl | rfl | rfl | rfl) <;> first | exact b64Char_lt _ | decide
  | [a, b] => by
    simp only [base64Encode, List.mem_cons, List.not_mem_nil, or_false]
    rintro x (rfl | rfl | rfl | rfl) <;> first | exact b64Char_lt _ | decide
  | a :: b :: c :: rest => by
    simp only [base64Encode, List.mem_cons]
    rintro x (rfl | rfl | rfl | rfl | hx)
    · exact b64Char_lt _
    · exact b64Char_lt _
    · exact b64Char_lt _
    · exact b64Char_lt _
    · exact base64Encode_ascii rest x hx

theorem toBase64_ascii (s : String) : ∀ x ∈ toBase64 s, x < 128 :=
  base64Encode_ascii (strUtf8 s)

/-! ## Helper lemmas about buffer writes -/

theorem writeAt_exact (x : List Nat) (off k m : Nat) (bs : List Nat)
    (hoff : off = x.length) (hm : bs.length + m = k) :
    writeAt (x ++ List.replicate k 0) off bs = (x ++ bs) ++ List.replicate m 0 := by
  subst hoff
  unfold writeAt
  have h1 : (x ++ List.replicate k 0).length - x.length = k := by simp
  rw [List.take_left, h1, List.take_of_length_le (by omega), List.drop_append,
    List.drop_replicate, show k - bs.length = m from by omega, List.append_assoc]

theorem writeStrAt_exact (x : List Nat) (off k m : Nat) (cs : List Nat)
    (hA : ∀ b ∈ cs, b < 128) (hoff : off = x.length) (hm : cs.length + m = k) :
    writeStrAt (x ++ List.replicate k 0) off cs = (x ++ cs) ++ List.replicate m 0 := by
  unfold writeStrAt
  have h1 : (x ++ List.replicate k 0).length - off = k := by simp [hoff]
  rw [h1, bufWriteStr_ascii cs k hA (by omega)]
  exact writeAt_exact x off k m cs hoff hm

theorem writeStrAt_pad (x : List Nat) (off k : Nat) (cs : List Nat)
    (hoff : off = x.length) :
    writeStrAt (x ++ List.replicate k 0) off cs = x ++ padTo k (bufWriteStr k cs) := by
  unfold writeStrAt
  have h1 : (x ++ List.replicate k 0).length - off = k := by simp [hoff]
  rw [h1]
  have h2 := bufWriteStr_length_le cs k
  rw [writeAt_exact x off k (k - (bufWriteStr k cs).length) (bufWriteStr k cs) hoff (by omega),
    List.append_assoc]
  rfl

theorem append_zero_replicate (x : List Nat) (n t : Nat) (h : n = t + 1) :
    x ++ List.replicate n 0 = (x ++ [0]) ++ List.replicate t 0 := by
  subst h
  rw [List.replicate_succ, List.append_assoc]
  rfl

/-! ## Structure of the messages built by the codec -/

/-- Byte-level normal form of `createMessage`: the reserved zero byte,
the app-name length 19 as little-endian u16, the app name, the payload
length as little-endian u16, and the payload after its round trip
through the UTF-8 string conversion, zero-padded to the declared
payload length. -/
theorem createMessage_eq (P : List Nat) :
    createMessage P =
      0 :: 19 :: 0 :: (appName ++ (P.length % 256 :: P.length / 256 % 256
        :: padTo P.length (bufWriteStr P.length (utf8Decode P)))) := by
  simp only [createMessage]
  rw [appName_length]
  rw [show List.replicate (5 + 19 + P.length) (0 : Nat) =
    [0] ++ List.replicate (23 + P.length) 0 from by
    rw [show 5 + 19 + P.length = (23 + P.length) + 1 from by omega, List.replicate_succ]; rfl]
  rw [writeAt_exact [0] 1 (23 + P.length) (21 + P.length) (u16LE 19) rfl
    (by rw [u16LE_length]; omega)]
  rw [writeStrAt_exact ([0] ++ u16LE 19) 3 (21 + P.length) (2 + P.length) appName
    appName_ascii (by simp [u16LE_length]) (by rw [appName_length]; omega)]
  rw [writeAt_exact (([0] ++ u16LE 19) ++ appName) (3 + 19) (2 + P.length) P.length
    (u16LE P.length) (by simp [u16LE_length, appName_length])
    (by rw [u16LE_length])]
  rw [writeStrAt_pad ((([0] ++ u16LE 19) ++ appName) ++ u16LE P.length) (5 + 19) P.length
    (utf8Decode P) (by simp [u16LE_length, appName_length])]
  simp only [u16LE, List.cons_append, List.nil_append, List.append_assoc]

/-- Parsing a well-formed envelope whose payload field declares `p`
bytes returns the first `p` bytes of what follows the length field. -/
theorem parseResponse_std (p : Nat) (tail : List Nat) (hp : p ≤ 65535) :
    parseResponse (0 :: 19 :: 0 :: (appName ++ (p % 256 :: p / 256 % 256 :: tail))) =
      Except.ok (tail.take p) := by
  have h1 : readUInt16LE (0 :: 19 :: 0 :: (appName ++ (p % 256 :: p / 256 % 256 :: tail))) 1 =
      Except.ok 19 := rfl
  have h2 : readUInt16LE (0 :: 19 :: 0 :: (appName ++ (p % 256 :: p / 256 % 256 :: tail)))
      (3 + 19) = Except.ok (p % 256 + 256 * (p / 256 % 256)) := rfl
  have h3 : (0 :: 19 :: 0 :: (appName ++ (p % 256 :: p / 256 % 256 :: tail))).drop (5 + 19) =
      tail := rfl
  simp only [parseResponse, h1, h2, h3]
  rw [show p % 256 + 256 * (p / 256 % 256) = p from by omega]

/-! ## Claim C1 -/

/-- C1, counterexample: the round trip
`parseResponse(createMessage(P)) = P` fails for the one-byte payload
`[0xFF]`, whose length is within the 16-bit bound.  `createMessage`
converts the payload through `payload.toString()`; the invalid UTF-8
byte 0xFF becomes the replacement character, whose three-byte encoding
does not fit the one remaining buffer byte, so the payload region
stays zero and decoding returns `[0]`, not `[0xFF]`. -/
theorem roundtrip_fails_nonascii :
    List.length [255] ≤ 65535 ∧ parseResponse (createMessage [255]) = Except.ok [0] ∧
      ¬ parseResponse (createMessage [255]) = Except.ok [255] := by
  refine ⟨by decide, by decide, by decide⟩

/-- C1, amended: for every payload of at most 65535 bytes all of whose
bytes are ASCII (below 0x80) — in particular every response signature —
decoding the envelope produced by encoding it returns the payload
exactly: `parseResponse (createMessage P) = P`. -/
theorem roundtrip_ascii (P : List Nat) (hA : ∀ b ∈ P, b < 128) (h65 : P.length ≤ 65535) :
    parseResponse (createMessage P) = Except.ok P := by
  rw [createMessage_eq, utf8Decode_ascii P hA,
    bufWriteStr_ascii P P.length hA (Nat.le_refl _), padTo_self,
    parseResponse_std P.length P h65, List.take_length]

/-- C1, witness: the amended round trip evaluated at the concrete
ASCII payload `[104, 105]`. -/
theorem roundtrip_ascii_witness :
    (∀ b ∈ [104, 105], b < 128) ∧ List.length [104, 105] ≤ 65535 ∧
      parseResponse (createMessage [104, 105]) = Except.ok [104, 105] :=
  ⟨by decide, by decide, roundtrip_ascii [104, 105] (by decide) (by decide)⟩

/-! ## Claim C2 -/

/-- C2, counterexample: `connect("999.999.999.999")` does reject with
the invalid-IP error, but a socket operation is still attempted on the
invalid-address path: the executor does not return after rejecting, so
`socket.connect(55000, ip, resolve)` is invoked anyway. -/
theorem connect_invalid_still_touches_socket :
    isIP "999.999.999.999" = 0 ∧
      connectSettle "999.999.999.999" = Settlement.rejected "Not a valid IP" ∧
      SocketOp.sockConnect 55000 "999.999.999.999" ∈ connectOps "999.999.999.999" := by
  refine ⟨by decide, by decide, by decide⟩

/-- C2, amended: for every string that is not a syntactically valid
IPv4 or IPv6 literal, `connect` rejects with the invalid-IP error, but
the socket connect call and the error-listener registration are still
performed: the executor body runs to the end because the reject
statement is not followed by a return. -/
theorem connect_invalid_rejects (ip : String) (h : isIP ip = 0) :
    connectSettle ip = Settlement.rejected "Not a valid IP" ∧
      connectOps ip = [SocketOp.sockConnect 55000 ip, SocketOp.onErrorListener] :=
  ⟨by simp [connectSettle, h], rfl⟩

/-- C2, witness: the amended claim evaluated at the concrete invalid
address string `abc`. -/
theorem connect_invalid_rejects_witness :
    isIP "abc" = 0 ∧
      (connectSettle "abc" = Settlement.rejected "Not a valid IP" ∧
        connectOps "abc" = [SocketOp.sockConnect 55000 "abc", SocketOp.onErrorListener]) :=
  ⟨by decide, connect_invalid_rejects "abc" (by decide)⟩

/-! ## Claim C3 -/

/-- C3, counterexample: a buffer declaring app-name length 0 and
payload length 5 with no payload bytes left.  `parseResponse` does not
fail: `slice` clamps to the end of the buffer and the call returns an
empty payload, shorter than the declared five bytes, with no
malformed-frame error. -/
theorem parseResponse_truncates :
    readUInt16LE [0, 0, 0, 5, 0] 1 = Except.ok 0 ∧
      readUInt16LE [0, 0, 0, 5, 0] (3 + 0) = Except.ok 5 ∧
      parseResponse [0, 0, 0, 5, 0] = Except.ok [] ∧
      List.length ([] : List Nat) < 5 := by
  refine ⟨rfl, rfl, rfl, by decide⟩

/-- C3, amended: `parseResponse` never reads out of bounds — every
returned payload is a contiguous infix of the input buffer.  When the
declared app-name length pushes the payload-length field past the end
of the buffer, the u16 read fails (with an out-of-range error, not a
typed malformed-frame error).  But a declared payload length exceeding
the remaining bytes is not detected: the call succeeds and returns the
remaining bytes, a payload that can be shorter than declared. -/
theorem parseResponse_bounds (r : List Nat) :
    (∀ p, parseResponse r = Except.ok p → ∃ s t, s ++ p ++ t = r) ∧
      (∀ sLen, readUInt16LE r 1 = Except.ok sLen → r.length < 5 + sLen →
        parseResponse r = Except.error PErr.outOfRange) ∧
      (∀ sLen pSize, readUInt16LE r 1 = Except.ok sLen →
        readUInt16LE r (3 + sLen) = Except.ok pSize →
        ∃ p, parseResponse r = Except.ok p ∧
          p.length = min pSize (r.length - (5 + sLen))) := by
  refine ⟨?_, ?_, ?_⟩
  · intro p hp
    cases h1 : readUInt16LE r 1 with
    | error e => simp [parseResponse, h1] at hp
    | ok sLen =>
      cases h2 : readUInt16LE r (3 + sLen) with
      | error e => simp [parseResponse, h1, h2] at hp
      | ok pSize =>
        simp only [parseResponse, h1, h2, Except.ok.injEq] at hp
        refine ⟨r.take (5 + sLen), (r.drop (5 + sLen)).drop pSize, ?_⟩
        rw [← hp, List.append_assoc, List.take_append_drop, List.take_append_drop]
  · intro sLen h1 hlen
    have h2 : readUInt16LE r (3 + sLen) = Except.error PErr.outOfRange := by
      unfold readUInt16LE
      cases hd : r.drop (3 + sLen) with
      | nil => rfl
      | cons a tl =>
        cases tl with
        | nil => rfl
        | cons b tl2 =>
          exfalso
          have hlen2 := congrArg List.length hd
          simp only [List.length_drop, List.length_cons] at hlen2
          omega
    simp only [parseResponse, h1, h2]
  · intro sLen pSize h1 h2
    refine ⟨(r.drop (5 + sLen)).take pSize, by simp only [parseResponse, h1, h2], ?_⟩
    simp [List.length_take, List.length_drop]

/-- C3, witness: the header-overrun branch at a buffer declaring
app-name length 2 with only five bytes in total, and the truncation
branch at a buffer declaring payload length 3 with no payload bytes. -/
theorem parseResponse_bounds_witness :
    parseResponse [0, 2, 0, 9, 9] = Except.error PErr.outOfRange ∧
      ∃ p, parseResponse [0, 1, 0, 7, 3, 0] = Except.ok p ∧
        p.length = min 3 (List.length [0, 1, 0, 7, 3, 0] - (5 + 1)) :=
  ⟨(parseResponse_bounds [0, 2, 0, 9, 9]).2.1 2 rfl (by decide),
    (parseResponse_bounds [0, 1, 0, 7, 3, 0]).2.2 1 3 rfl rfl⟩

/-! ## Claim C4 -/

/-- C4, counterexample: on a freshly constructed client (which can
never have authenticated), sending a key payload does not fail with
any invalid-state error: the frame is written to the socket and the
promise resolves. -/
theorem send_before_auth_writes :
    (sendMessageByPayload ⟨0, []⟩ true (createKeyPayload "KEY_VOLDOWN") none).settle =
        Settlement.resolved JSValue.undef ∧
      (sendMessageByPayload ⟨0, []⟩ true (createKeyPayload "KEY_VOLDOWN") none).client.written =
        [createMessage (createKeyPayload "KEY_VOLDOWN")] :=
  ⟨rfl, rfl⟩

/-- C4, amended: the client enforces no state machine at all: its only
state is the socket and the constructor delay, so `sendMessageByPayload`
(the key-send path) writes the framed payload to the socket and
resolves in every state, including before `authenticate` has resolved;
no invalid-state error exists in the code. -/
theorem sendMessageByPayload_unconditional (c : ClientModel) (flushed : Bool)
    (payload : List Nat) (delay : Option Nat) :
    (sendMessageByPayload c flushed payload delay).settle = Settlement.resolved JSValue.undef ∧
      (sendMessageByPayload c flushed payload delay).client.written =
        c.written ++ [createMessage payload] :=
  ⟨rfl, rfl⟩

/-! ## Claim C5 -/

/-- C5 (confirmed): while the authenticate promise is pending, an
inbound frame whose decoded payload is exactly the granted signature
`64 00 01 00` resolves the promise successfully — the only notion of
an authenticated session the code has. -/
theorem granted_resolves (data : List Nat) (h : parseResponse data = Except.ok granted) :
    authStep Settlement.pending data = Settlement.resolved (JSValue.str "Success") := by
  simp [authStep, authOnData, h]

/-- C5, witness: the granted transition evaluated on the concrete
envelope that frames the granted signature. -/
theorem granted_resolves_witness :
    authStep Settlement.pending (createMessage granted) =
      Settlement.resolved (JSValue.str "Success") :=
  granted_resolves (createMessage granted) (by decide)

/-! ## Claim C6 -/

/-- C6 (confirmed): while the authenticate promise is pending, an
inbound frame whose decoded payload is exactly the denied signature
`64 00 00 00` rejects it with the access-denied error, and one whose
decoded payload is exactly the timeout signature `65 00` rejects it
with the timeout error. -/
theorem denied_timeout_reject (data : List Nat) :
    (parseResponse data = Except.ok denied →
        authStep Settlement.pending data = Settlement.rejected "Access denied") ∧
      (parseResponse data = Except.ok timeoutResp →
        authStep Settlement.pending data = Settlement.rejected "Timeout") := by
  constructor
  · intro h
    simp [authStep, authOnData, h, granted, denied]
  · intro h
    simp [authStep, authOnData, h, granted, denied, timeoutResp]

/-- C6, witness: the denied and timeout transitions evaluated on the
concrete envelopes framing the two signatures. -/
theorem denied_timeout_reject_witness :
    authStep Settlement.pending (createMessage denied) = Settlement.rejected "Access denied" ∧
      authStep Settlement.pending (createMessage timeoutResp) = Settlement.rejected "Timeout" :=
  ⟨(denied_timeout_reject (createMessage denied)).1 (by decide),
    (denied_timeout_reject (createMessage timeoutResp)).2 (by decide)⟩

/-! ## Claim C7 -/

/-- C7 (confirmed): for every string accepted by the IP check and all
id and name strings, `createAuthPayload` produces exactly the layout
`64 | 00 | LL LH ip-base64 | LL LH id-base64 | LL LH name-base64`,
where each little-endian u16 length field is the byte length of the
base64-encoded form that follows it — not the length of the original
string. -/
theorem createAuthPayload_layout (ip id name : String) (h : isIP ip ≠ 0) :
    createAuthPayload ip id name =
      Except.ok ([0x64, 0] ++ u16LE (toBase64 ip).length ++ toBase64 ip
        ++ u16LE (toBase64 id).length ++ toBase64 id
        ++ u16LE (toBase64 name).length ++ toBase64 name) := by
  simp only [createAuthPayload, if_neg h]
  rw [show List.replicate
      (8 + (toBase64 ip).length + (toBase64 id).length + (toBase64 name).length) (0 : Nat) =
      [] ++ List.replicate
        (8 + (toBase64 ip).length + (toBase64 id).length + (toBase64 name).length) 0 from
    (List.nil_append _).symm]
  rw [writeAt_exact []
    0 (8 + (toBase64 ip).length + (toBase64 id).length + (toBase64 name).length)
    (7 + (toBase64 ip).length + (toBase64 id).length + (toBase64 name).length)
    [0x64] rfl (by simp only [List.length_cons, List.length_nil]; omega)]
  rw [append_zero_replicate ([] ++ [0x64])
    (7 + (toBase64 ip).length + (toBase64 id).length + (toBase64 name).length)
    (6 + (toBase64 ip).length + (toBase64 id).length + (toBase64 name).length) (by omega)]
  rw [writeAt_exact (([] ++ [0x64]) ++ [0])
    2 (6 + (toBase64 ip).length + (toBase64 id).length + (toBase64 name).length)
    (4 + (toBase64 ip).length + (toBase64 id).length + (toBase64 name).length)
    (u16LE (toBase64 ip).length)
    (by simp only [List.length_append, List.length_cons, List.length_nil])
    (by simp only [u16LE_length]; omega)]
  rw [writeStrAt_exact ((([] ++ [0x64]) ++ [0]) ++ u16LE (toBase64 ip).length)
    4 (4 + (toBase64 ip).length + (toBase64 id).length + (toBase64 name).length)
    (4 + (toBase64 id).length + (toBase64 name).length)
    (toBase64 ip) (toBase64_ascii ip)
    (by simp only [List.length_append, List.length_cons, List.length_nil, u16LE_length])
    (by omega)]
  rw [writeAt_exact (((([] ++ [0x64]) ++ [0]) ++ u16LE (toBase64 ip).length) ++ toBase64 ip)
    (4 + (toBase64 ip).length) (4 + (toBase64 id).length + (toBase64 name).length)
    (2 + (toBase64 id).length + (toBase64 name).length)
    (u16LE (toBase64 id).length)
    (by simp only [List.length_append, List.length_cons, List.length_nil, u16LE_length])
    (by simp only [u16LE_length]; omega)]
  rw [writeStrAt_exact ((((([] ++ [0x64]) ++ [0]) ++ u16LE (toBase64 ip).length)
      ++ toBase64 ip) ++ u16LE (toBase64 id).length)
    (6 + (toBase64 ip).length) (2 + (toBase64 id).length + (toBase64 name).length)
    (2 + (toBase64 name).length)
    (toBase64 id) (toBase64_ascii id)
    (by simp only [List.length_append, List.length_cons, List.length_nil, u16LE_length]; omega)
    (by omega)]
  rw [writeAt_exact (((((([] ++ [0x64]) ++ [0]) ++ u16LE (toBase64 ip).length)
      ++ toBase64 ip) ++ u16LE (toBase64 id).length) ++ toBase64 id)
    (6 + (toBase64 ip).length + (toBase64 id).length) (2 + (toBase64 name).length)
    (toBase64 name).length
    (u16LE (toBase64 name).length)
    (by simp only [List.length_append, List.length_cons, List.length_nil, u16LE_length]; omega)
    (by simp only [u16LE_length])]
  rw [writeStrAt_exact ((((((([] ++ [0x64]) ++ [0]) ++ u16LE (toBase64 ip).length)
      ++ toBase64 ip) ++ u16LE (toBase64 id).length) ++ toBase64 id)
      ++ u16LE (toBase64 name).length)
    (8 + (toBase64 ip).length + (toBase64 id).length) (toBase64 name).length 0
    (toBase64 name) (toBase64_ascii name)
    (by simp only [List.length_append, List.length_cons, List.length_nil, u16LE_length]; omega)
    (by omega)]
  simp only [List.replicate_zero, List.append_nil, List.nil_append, List.cons_append]

/-- C7, witness: the auth-payload layout evaluated at the concrete
address `1.2.3.4` with id `i` and name `n`. -/
theorem createAuthPayload_layout_witness :
    isIP "1.2.3.4" ≠ 0 ∧
      createAuthPayload "1.2.3.4" "i" "n" =
        Except.ok ([0x64, 0] ++ u16LE (toBase64 "1.2.3.4").length ++ toBase64 "1.2.3.4"
          ++ u16LE (toBase64 "i").length ++ toBase64 "i"
          ++ u16LE (toBase64 "n").length ++ toBase64 "n") :=
  ⟨by decide, createAuthPayload_layout "1.2.3.4" "i" "n" (by decide)⟩

/-! ## Claim C8 -/

/-- C8, counterexample: when the underlying `socket.write` reports
failure (returns false), `send` still resolves — with the bare boolean,
not a rejection — and `sendMessage` (the key-send path) discards even
that boolean and resolves with undefined, as if the send succeeded. -/
theorem failed_write_resolves :
    (send ⟨0, []⟩ false [7]).snd = Settlement.resolved (JSValue.bool false) ∧
      (sendMessage ⟨0, []⟩ false [7] none).settle = Settlement.resolved JSValue.undef :=
  ⟨rfl, rfl⟩

/-- C8, amended: `send` never rejects — its promise resolves with the
boolean returned by `socket.write`, so a failed write reaches the
caller of `send` only as the value false; `sendMessage` and with it
the key-send path discard that boolean and always resolve with
undefined, so a failed underlying write is not reported to their
caller as a failure.  Write errors surface only on the socket error
event, outside the promise of the operation. -/
theorem send_never_rejects (c : ClientModel) (flushed : Bool) (msg : List Nat)
    (delay : Option Nat) :
    (send c flushed msg).snd = Settlement.resolved (JSValue.bool flushed) ∧
      (sendMessage c flushed msg delay).settle = Settlement.resolved JSValue.undef :=
  ⟨rfl, rfl⟩

/-! ## Claim C9 -/

/-- C9 (confirmed): while the authenticate promise is pending, any
sequence of inbound frames whose decoded payloads all differ from the
granted, denied and timeout signatures — the await signature and
unrecognized payloads included, and frames the parser throws on as
well — leaves the promise pending: it is neither resolved nor rejected
and can remain pending forever. -/
theorem unhandled_stays_pending (frames : List (List Nat))
    (h : ∀ d ∈ frames, ∀ p, parseResponse d = Except.ok p →
      p ≠ granted ∧ p ≠ denied ∧ p ≠ timeoutResp) :
    List.foldl authStep Settlement.pending frames = Settlement.pending := by
  induction frames with
  | nil => rfl
  | cons d rest ih =>
    have hd := h d (List.mem_cons_self d rest)
    have hstep : authStep Settlement.pending d = Settlement.pending := by
      cases hp : parseResponse d with
      | error e => simp [authStep, authOnData, hp]
      | ok p =>
        obtain ⟨h1, h2, h3⟩ := hd p hp
        simp [authStep, authOnData, hp, h1, h2, h3]
    rw [List.foldl_cons, hstep]
    exact ih fun d2 hd2 => h d2 (List.mem_cons_of_mem d hd2)

/-- C9, witness: a pending authenticate stays pending across the
concrete envelope framing the await signature. -/
theorem unhandled_stays_pending_witness :
    List.foldl authStep Settlement.pending [createMessage awaitResp] = Settlement.pending := by
  apply unhandled_stays_pending
  intro d hd p hp
  rw [List.mem_singleton] at hd
  subst hd
  rw [show parseResponse (createMessage awaitResp) = Except.ok awaitResp from by decide] at hp
  injection hp with hp
  subst hp
  refine ⟨by decide, by decide, by decide⟩

/-! ## Claim C10 -/

/-- C10 (confirmed): in `sendMessage`, the timeout scheduled after the
write uses `delay || this.delay`, so an explicitly passed per-message
delay of 0 does not override a nonzero constructor delay: the
effective delay is the per-message delay when it is nonzero and the
constructor delay otherwise (also when no delay is passed). -/
theorem delay_zero_falls_back (c : ClientModel) (flushed : Bool) (msg : List Nat) :
    (sendMessage c flushed msg (some 0)).delayUsed = c.delay ∧
      (∀ d, d ≠ 0 → (sendMessage c flushed msg (some d)).delayUsed = d) ∧
      (sendMessage c flushed msg none).delayUsed = c.delay := by
  refine ⟨rfl, ?_, ?_⟩
  · intro d hd
    simp [sendMessage, hd]
  · simp [sendMessage]

/-- C10, witness: the delay fallback evaluated on a client constructed
with delay 5: an explicit 0 yields 5, an explicit 2 yields 2. -/
theorem delay_zero_falls_back_witness :
    (sendMessage ⟨5, []⟩ true [3] (some 0)).delayUsed = 5 ∧
      (sendMessage ⟨5, []⟩ true [3] (some 2)).delayUsed = 2 :=
  ⟨(delay_zero_falls_back ⟨5, []⟩ true [3]).1,
    (delay_zero_falls_back ⟨5, []⟩ true [3]).2.1 2 (by decide)⟩

end SamsungTVClient
